import Mathlib

/-!
Verification of the conversation-orchestration core of the Ecommerce-AI-Support-Agent
repository against its natural-language specification.

The Python modules embedded here are:
* `core/conversation/memory.py`        (`ConversationMemory`)
* `core/conversation/escalation_manager.py` (`EscalationManager`)
* `core/tools/registry.py`             (`ToolRegistry.select_tool`)
* `core/orchestrator.py`               (`ConversationOrchestrator.process_message`,
                                        `_extract_tool_params`, `_determine_scenario`)
* `core/llm/composer.py`               (`LLMResponseComposer.compose_response`,
                                        `_contains_hallucination`, `_safe_fallback_response`)

Remote collaborators (emotion classifier, context-resolution LLM call, tool back ends,
text generation) are modelled as explicit oracle parameters, matching the spec, which
treats them as black boxes with failure modes.
-/

set_option autoImplicit false

/-! ## String primitives

Python `needle in haystack` is substring containment and `str.lower()` is
character-wise lowering.  All keyword lists in the source are ASCII, so the
character-wise `Char.toLower` model agrees with Python on every string the
source compares against.
-/

/-- `leadsWith needle haystack` is true when `needle` occurs at the start of `haystack`. -/
def leadsWith : List Char → List Char → Bool
  | [], _ => true
  | _ :: _, [] => false
  | a :: as, b :: bs => a == b && leadsWith as bs

/-- `occursIn needle haystack` is true when `needle` occurs contiguously anywhere in
`haystack`; this is Python `needle in haystack` on strings. -/
def occursIn : List Char → List Char → Bool
  | n, [] => n.isEmpty
  | n, c :: cs => leadsWith n (c :: cs) || occursIn n cs

/-- Python `needle in haystack` (substring containment). -/
def strContains (haystack needle : String) : Bool :=
  occursIn needle.data haystack.data

/-- Python `s.lower()` restricted to ASCII data (all comparisons in the source are
against ASCII keyword lists). -/
def strLower (s : String) : String :=
  ⟨s.data.map Char.toLower⟩

/-! ## `core/conversation/memory.py` — `ConversationMemory`

A message record carries `role`, `content` and the token estimate; the wall-clock
`timestamp` field is dropped (no operation reads it).  Of the statistics fields only
`total_messages_added` is kept: it is the "how many messages were ever appended"
counter that claim C2 quantifies over.
-/

/-- One entry of `ConversationMemory.messages`. -/
structure MemMessage where
  role : String
  content : String
  tokens : Nat
deriving DecidableEq, Repr

/-- The state of a `ConversationMemory` instance. -/
structure ConversationMemory where
  messages : List MemMessage
  maxHistory : Nat
  maxTokens : Nat
  totalMessagesAdded : Nat
deriving DecidableEq, Repr

/-- `ConversationMemory.__init__` (defaults `max_history=20`, `max_tokens=4000`). -/
def mkMemory (maxHistory maxTokens : Nat) : ConversationMemory :=
  { messages := [], maxHistory := maxHistory, maxTokens := maxTokens, totalMessagesAdded := 0 }

/-- `ConversationMemory._estimate_tokens`: `len(text) // 4 + 1` (integer floor division). -/
def estimateTokens (text : String) : Nat :=
  text.length / 4 + 1

/-- Modelled from the spec: the spec (section 4.1 and its `_estimate_tokens` sentence)
states the token estimate as the ceiling `⌈len(text)/4⌉ + 1`.  This definition follows
the SPEC wording and is compared against `estimateTokens`, which follows the source. -/
def specEstimateTokens (text : String) : Nat :=
  (text.length + 3) / 4 + 1

/-- `ConversationMemory._get_total_tokens`. -/
def totalTokens (msgs : List MemMessage) : Nat :=
  (msgs.map (fun m => m.tokens)).sum

/-- `ConversationMemory._trim_history`: when over `max_history`, drop the oldest
messages so that exactly `max_history` remain. -/
def trimHistory (maxHistory : Nat) (msgs : List MemMessage) : List MemMessage :=
  if msgs.length > maxHistory then msgs.drop (msgs.length - maxHistory) else msgs

/-- `ConversationMemory._trim_by_tokens`: pop the oldest message while the token sum
exceeds `max_tokens` and more than 2 messages remain. -/
def trimByTokens (maxTokens : Nat) : List MemMessage → List MemMessage
  | [] => []
  | m :: rest =>
    if totalTokens (m :: rest) > maxTokens ∧ (m :: rest).length > 2 then
      trimByTokens maxTokens rest
    else
      m :: rest

/-- The messages list produced by `add_message` on a valid role: append the message
with its token estimate, then trim by count and, when over budget, by tokens. -/
def addMessageMessages (mem : ConversationMemory) (role content : String) : List MemMessage :=
  let msg : MemMessage := { role := role, content := content, tokens := estimateTokens content }
  let appended := mem.messages ++ [msg]
  let afterCount :=
    if appended.length > mem.maxHistory then trimHistory mem.maxHistory appended else appended
  if totalTokens afterCount > mem.maxTokens then trimByTokens mem.maxTokens afterCount
  else afterCount

/-- `ConversationMemory.add_message`: validate the role (raising `ValueError`,
modelled as `.error`, otherwise), then update the messages list and the
appended-messages counter. -/
def addMessage (mem : ConversationMemory) (role content : String) :
    Except String ConversationMemory :=
  if role = "user" ∨ role = "assistant" ∨ role = "system" then
    .ok { mem with messages := addMessageMessages mem role content,
                   totalMessagesAdded := mem.totalMessagesAdded + 1 }
  else
    .error ("Invalid role: " ++ role)

/-- The memory invariant of spec section 3, weakened exactly as the counterexample
forces: the count bound always holds; the token bound holds unless eviction has
stopped at the 2-message floor; and the 2-message survival guarantee needs
`max_history ≥ 2` (count trimming cuts to `max_history` regardless). -/
def MemoryInv (mem : ConversationMemory) : Prop :=
  mem.messages.length ≤ mem.maxHistory ∧
  (totalTokens mem.messages ≤ mem.maxTokens ∨ mem.messages.length ≤ 2) ∧
  (2 ≤ mem.maxHistory → min 2 mem.totalMessagesAdded ≤ mem.messages.length)

deriving instance DecidableEq for Except

/-- A sequence of `add_message` calls, each given as a `(role, content)` pair. -/
def runCalls (mem : ConversationMemory) : List (String × String) → Except String ConversationMemory
  | [] => .ok mem
  | (role, content) :: rest =>
    match addMessage mem role content with
    | .error e => .error e
    | .ok mem1 => runCalls mem1 rest

/-! ## `core/conversation/escalation_manager.py` — `EscalationManager`

`should_escalate` is a pure function of its context dictionary; the mutable
`escalation_history` log is only appended to afterwards and never read by the
decision, so it is not part of the model.  The `scenario` context key is accepted
by the Python function but never used, and the `intensity`/`timestamp` fields of
emotion-history entries are never read, so history entries are reduced to their
`emotion` string.
-/

/-- One entry of the emotion history (a dict with emotion, intensity and timestamp keys;
only the emotion string is ever read by the escalation policy). -/
structure EmotionRecord where
  emotion : String
deriving DecidableEq, Repr

/-- `EscalationManager.TIER1_KEYWORDS`. -/
def TIER1_KEYWORDS : List String :=
  ["refund", "money back", "cancel order", "cancel my order",
   "lawyer", "legal action", "sue", "court", "attorney",
   "chargeback", "dispute charge", "fraud", "scam", "stolen",
   "fuck", "shit", "bastard", "bitch",
   "consumer court", "consumer forum", "file complaint"]

/-- `EscalationManager.TIER2_KEYWORDS`.  The first six entries are grouped under the
source comment `# Explicit human request`, the last eight under `# Strong frustration`. -/
def TIER2_KEYWORDS : List String :=
  ["speak to human", "talk to person", "real person",
   "customer service", "manager", "supervisor",
   "ridiculous", "unacceptable", "disgusting", "horrible",
   "worst", "terrible", "pathetic", "useless"]

/-- The float literal `0.6` of `_check_tier2_conditional`, as the rational `3/5`.
Written with the raw `Rat` constructor so that kernel reduction (`decide`) can
evaluate comparisons against it; `confidenceLowThreshold_eq` checks it equals `0.6`. -/
def confidenceLowThreshold : ℚ := ⟨3, 5, by decide, by decide⟩

theorem confidenceLowThreshold_eq : confidenceLowThreshold = 0.6 := by
  unfold confidenceLowThreshold
  rw [Rat.mk'_eq_divInt, Rat.divInt_eq_div]
  norm_num

/-- Result shape of `_check_tier1_mandatory`. -/
structure Tier1Check where
  escalate : Bool
  reason : Option String
  keywords : List String
deriving DecidableEq, Repr

/-- Result shape of `_check_tier2_conditional`. -/
structure Tier2Check where
  escalate : Bool
  reason : Option String
  urgency : Option String
  keywords : List String
deriving DecidableEq, Repr

/-- The dictionary returned by `should_escalate` (the optional `keywords_matched` /
`note` diagnostic keys are omitted; no caller reads them). -/
structure EscalationVerdict where
  should_escalate : Bool
  escalation_tier : Nat
  reason : String
  urgency : String
  suggested_message : Option String
  prevent_escalation : Bool
deriving DecidableEq, Repr

/-- Reason selection inside `_check_tier1_mandatory`: first matching category in the
fixed priority order. -/
def tier1Reason (matched : List String) : String :=
  if matched.contains "refund" ∨ matched.contains "money back" then "refund_request"
  else if matched.contains "cancel order" ∨ matched.contains "cancel my order" then "cancellation_request"
  else if matched.contains "lawyer" ∨ matched.contains "legal" ∨ matched.contains "sue" ∨ matched.contains "court" then "legal_threat"
  else if matched.contains "chargeback" ∨ matched.contains "dispute" ∨ matched.contains "fraud" ∨ matched.contains "scam" then "chargeback_fraud"
  else if matched.contains "fuck" ∨ matched.contains "shit" ∨ matched.contains "bastard" ∨ matched.contains "bitch" then "severe_abuse"
  else "tier1_trigger"

/-- `EscalationManager._check_tier1_mandatory` (argument is the already-lowercased message). -/
def checkTier1Mandatory (message : String) : Tier1Check :=
  let matched := TIER1_KEYWORDS.filter (fun k => strContains message k)
  if matched = [] then
    { escalate := false, reason := none, keywords := [] }
  else
    { escalate := true, reason := some (tier1Reason matched), keywords := matched }

/-- `EscalationManager._check_tier2_conditional` (argument is the already-lowercased
message).  The `emotion` parameter is accepted but never used, exactly as in the
source.  Note the human-request scan is over `TIER2_KEYWORDS[:4]` — the first FOUR
entries only — and the strong-frustration scan over `TIER2_KEYWORDS[4:]`. -/
def checkTier2Conditional (message : String) (emotion : String)
    (emotionHistory : List EmotionRecord) (confidence : ℚ) (toolFailures : Nat) : Tier2Check :=
  let humanMatched := (TIER2_KEYWORDS.take 4).filter (fun k => strContains message k)
  if humanMatched ≠ [] then
    { escalate := true, reason := some "explicit_human_request", urgency := some "high",
      keywords := humanMatched }
  else if 3 ≤ emotionHistory.length ∧
      3 ≤ ((emotionHistory.drop (emotionHistory.length - 3)).filter
            (fun e => e.emotion == "frustrated")).length then
    { escalate := true, reason := some "repeated_frustration", urgency := some "high",
      keywords := ["repeated frustration"] }
  else if confidence < confidenceLowThreshold then
    { escalate := true, reason := some "low_confidence", urgency := some "medium",
      keywords := ["low confidence"] }
  else if 2 ≤ toolFailures then
    { escalate := true, reason := some "tool_failures", urgency := some "medium",
      keywords := ["system issues"] }
  else
    let frustrationMatched := (TIER2_KEYWORDS.drop 4).filter (fun k => strContains message k)
    if 2 ≤ frustrationMatched.length then
      { escalate := true, reason := some "extreme_frustration", urgency := some "high",
        keywords := frustrationMatched }
    else
      { escalate := false, reason := none, urgency := none, keywords := [] }

/-- The count of `frustrated` entries among the last two emotion-history entries
(the Python sum over the last two history entries whose emotion equals frustrated). -/
def countFrustratedLast2 (emotionHistory : List EmotionRecord) : Nat :=
  ((emotionHistory.drop (emotionHistory.length - 2)).filter
    (fun e => e.emotion == "frustrated")).length

/-- `EscalationManager._should_try_empathy_first`. -/
def shouldTryEmpathyFirst (emotionHistory : List EmotionRecord) : Bool :=
  if emotionHistory.length < 2 then true
  else countFrustratedLast2 emotionHistory < 2

/-- `EscalationManager._build_escalation_message` (reason-keyed template; the
`urgency` parameter is accepted but unused, as in the source). -/
def buildEscalationMessage (reason : String) (urgency : String) : String :=
  if reason = "refund_request" then
    "I understand you\u0027d like a refund. Let me connect you with our support team who can help process that for you right away."
  else if reason = "cancellation_request" then
    "I understand you need to cancel your order. Let me connect you with our team who can assist with that immediately."
  else if reason = "legal_threat" then
    "I understand your concerns. Let me connect you with our customer relations team who can address this matter properly."
  else if reason = "chargeback_fraud" then
    "I take your concerns very seriously. Let me connect you with our support team immediately to resolve this."
  else if reason = "severe_abuse" then
    "I\u0027m here to help, but I need us to communicate respectfully. Let me connect you with a team member who can assist you."
  else if reason = "explicit_human_request" then
    "Of course! Let me connect you with a team member right away."
  else if reason = "repeated_frustration" then
    "I can see this has been frustrating for you, and I apologize for that. Let me connect you with our support team who can give this the attention it deserves."
  else if reason = "low_confidence" then
    "I want to make sure you get accurate information. Let me connect you with a specialist who can help you better."
  else if reason = "tool_failures" then
    "I\u0027m having trouble accessing our systems right now. Let me connect you with our support team who can assist you directly."
  else if reason = "extreme_frustration" then
    "I completely understand your frustration, and I apologize for the inconvenience. Let me connect you with our support team who can resolve this for you."
  else
    "Let me connect you with our support team who can assist you better."

/-- `EscalationManager._build_empathy_message`. -/
def buildEmpathyMessage (emotion : String) : String :=
  if emotion = "frustrated" then
    "I completely understand your frustration, and I\u0027m truly sorry for the inconvenience. Let me do everything I can to help resolve this for you."
  else if emotion = "urgent" then
    "I understand this is urgent for you. Let me prioritize this and get you the information you need right away."
  else
    "I understand this is important to you. Let me help resolve this for you."

/-- `EscalationManager.should_escalate`, with the context dictionary split into
explicit arguments (defaults in the source: emotion neutral, history empty,
confidence `1.0`, tool failures `0`). -/
def shouldEscalate (message emotion : String) (emotionHistory : List EmotionRecord)
    (confidence : ℚ) (toolFailures : Nat) : EscalationVerdict :=
  let m := strLower message
  let tier1 := checkTier1Mandatory m
  if tier1.escalate then
    { should_escalate := true, escalation_tier := 1, reason := tier1.reason.getD "",
      urgency := "critical",
      suggested_message := some (buildEscalationMessage (tier1.reason.getD "") "critical"),
      prevent_escalation := false }
  else
    let tier2 := checkTier2Conditional m emotion emotionHistory confidence toolFailures
    if tier2.escalate then
      if shouldTryEmpathyFirst emotionHistory then
        { should_escalate := false, escalation_tier := 3, reason := "empathy_first",
          urgency := "medium", suggested_message := some (buildEmpathyMessage emotion),
          prevent_escalation := true }
      else
        { should_escalate := true, escalation_tier := 2, reason := tier2.reason.getD "",
          urgency := tier2.urgency.getD "",
          suggested_message := some (buildEscalationMessage (tier2.reason.getD "") (tier2.urgency.getD "")),
          prevent_escalation := false }
    else
      { should_escalate := false, escalation_tier := 0, reason := "none", urgency := "none",
        suggested_message := none, prevent_escalation := false }

/-! ## `core/tools/registry.py` — `ToolRegistry`

`_register_tools` builds a Python dict in insertion order; `select_tool` iterates
over that dict and returns the first tool any of whose keywords is a substring of
the lowercased message.  The selection consults nothing except the keyword lists:
there is no digit-pattern rule and no precedence adjustment.
-/

/-- The tool table of `_register_tools`, in insertion order, reduced to the data
`select_tool` reads: tool name and trigger keywords. -/
def toolTable : List (String × List String) :=
  [("get_order_status", ["order", "track", "status", "where", "delivery", "shipped"]),
   ("search_knowledge", ["policy", "return", "refund", "exchange", "shipping", "warranty", "cancel"]),
   ("get_product_info", ["product", "item", "details", "available", "stock", "price"]),
   ("check_shipping_eligibility", ["ship", "deliver", "pincode", "location", "available"])]

/-- `ToolRegistry.select_tool`: first tool (in registration order) with a keyword
occurring in the lowercased message. -/
def selectTool (userMessage : String) : Option String :=
  let m := strLower userMessage
  (toolTable.find? (fun t => t.2.any (fun k => strContains m k))).map (fun t => t.1)

/-! ## `core/orchestrator.py` — parameter extraction

`_extract_tool_params` uses `re.search` with the patterns `\b(\d{4,5})\b` (order id)
and `\b(\d{6})\b` (pincode).  In Python `\w = [a-zA-Z0-9_]` (for the ASCII inputs
considered here) and `\b` is a word/non-word boundary, so `\b(\d{m,n})\b` matches
exactly when some maximal run of word characters consists solely of digits and has
length between `m` and `n`: a boundary can only sit at the edges of a maximal word
run, and a digit-only match bounded by word characters on either side is impossible.
`re.search` returns the leftmost such run.
-/

/-- Python word character for ASCII input: `[a-zA-Z0-9_]`. -/
def isWordChar (c : Char) : Bool :=
  c.isAlphanum || c == '_'

/-- Splits a character list into its maximal runs of word characters
(`acc` holds the current run, reversed). -/
def wordRunsAux : List Char → List Char → List (List Char)
  | [], acc => if acc = [] then [] else [acc.reverse]
  | c :: rest, acc =>
    if isWordChar c then wordRunsAux rest (c :: acc)
    else if acc = [] then wordRunsAux rest [] else acc.reverse :: wordRunsAux rest []

/-- Maximal runs of word characters of a string. -/
def wordRuns (s : String) : List (List Char) :=
  wordRunsAux s.data []

/-- `re.search` for the raw pattern `\b(\d{lo,hi})\b`: the leftmost maximal word run
that is all digits with length in `[lo, hi]`, as a string. -/
def searchDigitRun (lo hi : Nat) (message : String) : Option String :=
  ((wordRuns message).find?
      (fun run => run.all (fun c => c.isDigit) && lo ≤ run.length && run.length ≤ hi)).map
    (fun run => ⟨run⟩)

/-- The active-topic slot of the orchestrator (`self.active_topic`); the free-text
`context` field is never read by parameter extraction and is omitted. -/
structure ActiveTopic where
  topic_type : String
  entity_id : String
deriving DecidableEq, Repr

/-- The message-parsing half of `_extract_tool_params` (the code below the
`# Otherwise, extract from message` comment). -/
def extractFromMessage (message toolName : String) : List (String × String) :=
  if toolName = "get_order_status" then
    match searchDigitRun 4 5 message with
    | some oid => [("order_id", oid)]
    | none => []
  else if toolName = "check_shipping_eligibility" then
    match searchDigitRun 6 6 message with
    | some pincode => [("pincode", pincode)]
    | none => []
  else if toolName = "search_knowledge" then
    [("query", message)]
  else
    []

/-- `ConversationOrchestrator._extract_tool_params`: when an active topic with a
non-empty entity id exists and the tool is the order-status tool with an ORDER
topic, the topic entity id is returned directly; otherwise parameters are parsed
from the message. -/
def extractToolParams (activeTopic : Option ActiveTopic) (message toolName : String) :
    List (String × String) :=
  match activeTopic with
  | some t =>
    if t.entity_id ≠ "" ∧ toolName = "get_order_status" ∧ t.topic_type = "ORDER" then
      [("order_id", t.entity_id)]
    else
      extractFromMessage message toolName
  | none => extractFromMessage message toolName

/-! ## `core/llm/composer.py` — `LLMResponseComposer`

The orchestrator facts dictionary is modelled as a structure whose fields are the
keys the embedded code reads or writes (`facts.get(...)` on an absent key is the
`none` of the corresponding `Option` field).  Tool payloads are opaque to the core
and modelled as `Option String`.
-/

/-- The per-turn facts bag (`facts` dict).  `brand_name`/`brand_voice` are written
but never read by the embedded decision code and are omitted. -/
structure Facts where
  order_id : Option String := none
  escalation : Option EscalationVerdict := none
  empathy_needed : Bool := false
  active_topic : Option ActiveTopic := none
  context_confidence : Option ℚ := none
  order_data : Option String := none
  knowledge_data : Option String := none
  shipping_data : Option String := none
  product_data : Option String := none
  tool_error : Option String := none
deriving DecidableEq, Repr

/-- The fixed forbidden-phrase list `hallucination_phrases` of
`_contains_hallucination`, verbatim from the source (note the mixed case of the
first three entries). -/
def hallucinationPhrases : List String :=
  ["I\u0027ll cancel that for you",
   "I\u0027ve processed the refund",
   "I\u0027ll upgrade your shipping",
   "tracking number is",
   "order number is"]

/-- `LLMResponseComposer._contains_hallucination`: lowercases the response, then
checks each (mixed-case) phrase for substring occurrence.  The `facts` argument is
accepted but unused beyond a comment, as in the source. -/
def containsHallucination (response : String) (facts : Facts) : Bool :=
  let responseLower := strLower response
  hallucinationPhrases.any (fun phrase => strContains responseLower phrase)

/-- `LLMResponseComposer._safe_fallback_response` (scenario-keyed deterministic
fallback; `facts.get("order_id", "your order")`). -/
def safeFallbackResponse (scenario : String) (facts : Facts) : String :=
  let orderId := facts.order_id.getD "your order"
  if scenario = "delay_explanation" then
    "I understand you\u0027re asking about the delivery timeline for " ++ orderId ++
      ". Let me connect you with our support team who can provide detailed information and help resolve any concerns."
  else if scenario = "cancellation_request" then
    "I\u0027d like to help with your cancellation request for " ++ orderId ++
      ". Let me connect you with our team who can review the order status and discuss your options."
  else if scenario = "order_status_simple" then
    "I have information about " ++ orderId ++
      ". Let me get you to someone who can share the full details."
  else
    "I want to make sure I give you accurate information. Let me connect you with our support team who can help you right away."

/-- `LLMResponseComposer.compose_response` with the remote OpenAI call abstracted
as its outcome `generation` (`.ok text` for a successful generation, `.error` for a
raised exception): a raised generation falls through to the deterministic fallback,
a successful one is returned unless the hallucination check fires. -/
def composeResponse (scenario : String) (facts : Facts) (generation : Except String String) :
    String :=
  match generation with
  | .ok generated =>
    if containsHallucination generated facts then safeFallbackResponse scenario facts
    else generated
  | .error _ => safeFallbackResponse scenario facts

/-! ## `core/orchestrator.py` — `ConversationOrchestrator.process_message`

Exceptions are modelled with `Except String`: a collaborator raising is `.error`,
and Python propagates it out of `process_message` because no surrounding
`try/except` exists there.  `context.add_user_message` / `add_assistant_message`
delegate to `ConversationMemory.add_message` on the memory owned by the
conversation context.  Orchestrator statistics other than
`tool_stats["tool_failures"]` (which feeds the escalation policy) are not read by
any decision and are omitted.
-/

/-- The float literal `0.7` of the context-resolution acceptance test in
`process_message`, as the rational `7/10` (raw constructor for kernel reduction);
`confidenceContinueThreshold_eq` checks it equals `0.7`. -/
def confidenceContinueThreshold : ℚ := ⟨7, 10, by decide, by decide⟩

theorem confidenceContinueThreshold_eq : confidenceContinueThreshold = 0.7 := by
  unfold confidenceContinueThreshold
  rw [Rat.mk'_eq_divInt, Rat.divInt_eq_div]
  norm_num

/-- Result dict of `ContextResolver.resolve_context`.  The `reasoning` diagnostic
key is omitted. -/
structure ContextResult where
  about_current_topic : Bool
  confidence : ℚ
  ambiguous : Bool
  suggested_action : String
deriving DecidableEq, Repr

/-- Result dict of `ToolRegistry.execute_tool`. -/
structure ToolResult where
  success : Bool
  data : Option String
  error : Option String
deriving DecidableEq, Repr

/-- The remote collaborators of a turn, as oracles.

* `detectEmotion` — Modelled from the spec: the emotion classifier
  (`core.emotion.detector.EmotionDetector.detect_emotion`, imported by the
  orchestrator but absent from the snapshot).  Section 6 of the spec gives the
  contract `classify(text) -> {emotion, intensity}`; it is called bare in
  `process_message`, so a raise (`.error`) propagates.  The third component of the
  Python triple (`triggers`) is never read and is dropped.
* `resolveContext` — `ContextResolver.resolve_context`; its body wraps the remote
  call and all parsing in `try/except` with a deterministic fallback dict, so it is
  total.
* `executeTool` — `ToolRegistry.execute_tool`; its body wraps the tool call in
  `try/except` returning a failure dict, so it is total.
* `generate` — the outcome of the OpenAI call inside `compose_response`
  (`.error` models a raised exception). -/
structure Collaborators where
  detectEmotion : String → Except String (String × Nat)
  resolveContext : String → ActiveTopic → ContextResult
  executeTool : String → List (String × String) → ToolResult
  generate : Except String String

/-- The orchestrator state read and written by `process_message`. -/
structure OrchestratorState where
  memory : ConversationMemory
  activeTopic : Option ActiveTopic
  emotionHistory : List EmotionRecord
  toolFailures : Nat
  toolsAvailable : Bool
deriving DecidableEq, Repr

/-- A freshly constructed orchestrator: empty context memory (defaults 20/4000),
no active topic, empty emotion history, zero tool failures, tools registered. -/
def initialOrchestratorState : OrchestratorState :=
  { memory := mkMemory 20 4000, activeTopic := none, emotionHistory := [],
    toolFailures := 0, toolsAvailable := true }

/-- The orchestrator escalation call (`process_message`, the `ESCALATION CHECK`
block): `should_escalate` is invoked with `confidence` hard-coded to `1.0` and
`tool_failures` taken from the running statistics. -/
def orchestratorEscalationCheck (userMessage emotion : String)
    (emotionHistory : List EmotionRecord) (toolFailures : Nat) : EscalationVerdict :=
  shouldEscalate userMessage emotion emotionHistory (1 : ℚ) toolFailures

/-- `ConversationOrchestrator._determine_scenario` (`facts.get(...)` truthiness of
a tool payload is modelled as `Option.isSome`). -/
def determineScenario (emotion : String) (facts : Facts) (toolUsed : Option String) : String :=
  if toolUsed = some "get_order_status" ∧ facts.order_data.isSome then
    if emotion = "frustrated" then "frustrated_customer_with_order" else "order_status_query"
  else if toolUsed = some "search_knowledge" ∧ facts.knowledge_data.isSome then
    "policy_question"
  else if toolUsed = some "check_shipping_eligibility" ∧ facts.shipping_data.isSome then
    "shipping_inquiry"
  else if emotion = "frustrated" then
    "frustrated_customer"
  else
    "general_query"

/-- The parameter names accepted by `LLMResponseComposer.compose_response`
(`core/llm/composer.py`, its `def` line): `self` excluded. -/
def composeAcceptedParams : List String :=
  ["scenario", "facts", "constraints", "emotion", "custom_instructions"]

/-- The keyword arguments the orchestrator passes at its `compose_response` call
site (`core/orchestrator.py`, the `Generate response` block). -/
def orchestratorComposeKeywordArgs : List String :=
  ["scenario", "facts", "constraints", "emotion", "brand_voice", "system_prompt"]

/-- The exception Python raises when a call passes a keyword argument the callee
does not accept. -/
def composeTypeError : String :=
  "TypeError: compose_response() got an unexpected keyword argument \u0027brand_voice\u0027"

/-- The orchestrator call `self.composer.compose_response(...)`: Python first
binds the keyword arguments against the signature in `composer.py`; only if every
keyword is an accepted parameter does the body of `compose_response` run, otherwise
the call raises `TypeError` (constraints/custom instructions do not influence the
embedded body and are not threaded). -/
def callComposerComposeResponse (scenario : String) (facts : Facts)
    (generation : Except String String) : Except String String :=
  if orchestratorComposeKeywordArgs.all (fun k => composeAcceptedParams.contains k) then
    .ok (composeResponse scenario facts generation)
  else
    .error composeTypeError

/-- The result of the tool-execution block: selected tool, success flag, possibly
rewritten topic, updated facts and updated failure count. -/
def toolExecutionStep (collab : Collaborators) (toolsAvailable : Bool)
    (topic : Option ActiveTopic) (facts : Facts) (userMessage : String)
    (toolFailures : Nat) :
    Option String × Bool × Option ActiveTopic × Facts × Nat :=
  if toolsAvailable && facts.escalation.isNone then
    match selectTool userMessage with
    | none => (none, false, topic, facts, toolFailures)
    | some selectedTool =>
      let params := extractToolParams topic userMessage selectedTool
      if params ≠ [] then
        let topic1 :=
          if selectedTool = "get_order_status" ∧ (params.lookup "order_id").isSome then
            some { topic_type := "ORDER", entity_id := (params.lookup "order_id").getD "" }
          else if selectedTool = "search_knowledge" then
            some { topic_type := "POLICY", entity_id := "general" }
          else topic
        let result := collab.executeTool selectedTool params
        if result.success then
          let facts1 :=
            if selectedTool = "get_order_status" then { facts with order_data := result.data }
            else if selectedTool = "search_knowledge" then { facts with knowledge_data := result.data }
            else if selectedTool = "check_shipping_eligibility" then { facts with shipping_data := result.data }
            else if selectedTool = "get_product_info" then { facts with product_data := result.data }
            else facts
          (some selectedTool, true, topic1, facts1, toolFailures)
        else
          (some selectedTool, false, topic1, { facts with tool_error := result.error },
           toolFailures + 1)
      else
        (none, false, topic, facts, toolFailures)
  else
    (none, false, topic, facts, toolFailures)

/-- `ConversationOrchestrator.process_message`: record the user message, classify
emotion, append to the bounded emotion history, run the escalation check
(confidence 1.0), resolve the active topic, select/execute a tool, pick the
scenario, call the composer, apply the escalation-message override, record the
assistant message, and return the response with the updated state (the returned
metadata dict is reporting only and is not modelled). -/
def processMessage (collab : Collaborators) (st : OrchestratorState) (userMessage : String) :
    Except String (String × OrchestratorState) :=
  match addMessage st.memory "user" userMessage with
  | .error e => .error e
  | .ok mem1 =>
    match collab.detectEmotion userMessage with
    | .error e => .error e
    | .ok (emotion, _intensity) =>
      let hist0 := st.emotionHistory ++ [{ emotion := emotion }]
      let hist := if hist0.length > 10 then hist0.drop (hist0.length - 10) else hist0
      let escalationCheck := orchestratorEscalationCheck userMessage emotion hist st.toolFailures
      let facts0 : Facts :=
        { escalation := if escalationCheck.should_escalate then some escalationCheck else none,
          empathy_needed := !escalationCheck.should_escalate && escalationCheck.prevent_escalation }
      let topicAndFacts :=
        match st.activeTopic with
        | none => (none, facts0)
        | some t =>
          let r := collab.resolveContext userMessage t
          if r.about_current_topic && decide (confidenceContinueThreshold < r.confidence) then
            (some t, { facts0 with active_topic := some t, context_confidence := some r.confidence })
          else
            (none, facts0)
      let afterTools :=
        toolExecutionStep collab st.toolsAvailable topicAndFacts.1 topicAndFacts.2
          userMessage st.toolFailures
      let toolUsed := afterTools.1
      let topic2 := afterTools.2.2.1
      let facts2 := afterTools.2.2.2.1
      let failures2 := afterTools.2.2.2.2
      let scenario :=
        if facts2.escalation.isSome then "escalation_needed"
        else determineScenario emotion facts2 toolUsed
      match callComposerComposeResponse scenario facts2 collab.generate with
      | .error e => .error e
      | .ok response0 =>
        let response :=
          match facts2.escalation with
          | some verdict => verdict.suggested_message.getD response0
          | none => response0
        match addMessage mem1 "assistant" response with
        | .error e => .error e
        | .ok mem2 =>
          .ok (response,
            { memory := mem2, activeTopic := topic2, emotionHistory := hist,
              toolFailures := failures2, toolsAvailable := st.toolsAvailable })

/-- Well-behaved collaborators: every remote call succeeds.  Used to show that
`process_message` fails even when no collaborator misbehaves. -/
def benignCollaborators : Collaborators :=
  { detectEmotion := fun _ => .ok ("neutral", 0),
    resolveContext := fun _ _ =>
      { about_current_topic := false, confidence := 0, ambiguous := false,
        suggested_action := "new_topic" },
    executeTool := fun _ _ => { success := true, data := some "data", error := none },
    generate := .ok "Happy to help with that!" }

/-! ## Theorems -/

/-- C6 (counterexample): the claim says every message containing a 6-digit numeric
token or a shipping keyword selects the shipping tool, with the shipping rule
checked before order lookup.  But `select_tool` has no digit rule at all and scans
the order-status keywords first: the bare 6-digit message `"400001"` (which
`\b(\d{6})\b` matches) selects no tool, and `"can you ship order 400001"` — a
6-digit pincode message with the shipping keyword `ship` — is routed to the
order-status tool. -/
theorem tool_selection_counterexample :
    searchDigitRun 6 6 "400001" = some "400001" ∧
    selectTool "400001" = none ∧
    strContains (strLower "can you ship order 400001") "ship" = true ∧
    selectTool "can you ship order 400001" = some "get_order_status" := by
  decide

/-- C6 (amended): tool selection is a first-match keyword-substring scan in
registration order (order-status, knowledge-search, product-info, shipping); there
is no 6-digit-token rule and the order-status keywords are scanned first, not the
shipping rule.  The three concrete example messages of the claim nonetheless route
as stated. -/
theorem tool_selection_amended :
    selectTool "ship to pincode 400001" = some "check_shipping_eligibility" ∧
    selectTool "where is order 12345" = some "get_order_status" ∧
    selectTool "what's your return policy?" = some "search_knowledge" := by
  decide

/-- C7 (counterexample): with the claimed active topic in place, processing
`"why is it late?"` does not select the order-status tool — `select_tool` consults
only the message keywords, none of which occur, so no tool is selected at all. -/
theorem context_carry_over_counterexample :
    selectTool "why is it late?" ≠ some "get_order_status" := by
  decide

/-- C7 (amended): for `"why is it late?"` the keyword scan selects no tool, so the
turn performs no parameter extraction; the topic-preference logic itself is present
in `_extract_tool_params` — invoked for the order-status tool with topic
Active(ORDER, 12345) it does return order_id 12345 even though the message contains
no digit run. -/
theorem context_carry_over_amended :
    selectTool "why is it late?" = none ∧
    searchDigitRun 4 5 "why is it late?" = none ∧
    extractToolParams (some { topic_type := "ORDER", entity_id := "12345" })
        "why is it late?" "get_order_status" = [("order_id", "12345")] := by
  decide

/-- C8 (code bug): `_contains_hallucination` lowercases the generated text but then
looks for the mixed-case phrases verbatim, so a phrase containing a capital letter
(`I'll cancel that for you` and the other two first-person promises) can never be
found in the lowercased text.  At the failing input — a generated reply starting
with exactly that forbidden phrase — the guard reports no hallucination and
`compose_response` returns the generated text verbatim, so the forbidden phrase
does appear in the composed reply. -/
theorem hallucination_guard_case_mismatch :
    "I'll cancel that for you" ∈ hallucinationPhrases ∧
    strContains "I'll cancel that for you right away." "I'll cancel that for you" = true ∧
    containsHallucination "I'll cancel that for you right away." {} = false ∧
    composeResponse "cancellation_request" {} (.ok "I'll cancel that for you right away.") =
      "I'll cancel that for you right away." := by
  decide

/-- C9 (counterexample): `_estimate_tokens` is `len(text) // 4 + 1` — floor, not
ceiling.  On the one-character text `"a"` the recorded estimate is 1, while the
ceiling formula of the claim gives 2. -/
theorem token_estimate_counterexample :
    addMessage (mkMemory 20 4000) "user" "a" =
      .ok { messages := [{ role := "user", content := "a", tokens := 1 }],
            maxHistory := 20, maxTokens := 4000, totalMessagesAdded := 1 } ∧
    specEstimateTokens "a" = 2 ∧
    estimateTokens "a" ≠ specEstimateTokens "a" := by
  decide

/-- C2 (counterexample): (i) with `max_tokens = 1`, a single valid `add_message`
leaves one message of 3 estimated tokens — the token sum exceeds the budget because
`_trim_by_tokens` never evicts when at most 2 messages remain; (ii) with
`max_history = 1`, two valid appends leave only one message, so fewer than 2
messages survive even though 2 were appended. -/
theorem memory_bound_counterexample :
    (addMessage (mkMemory 20 1) "user" "aaaaaaaa" =
        .ok { messages := [{ role := "user", content := "aaaaaaaa", tokens := 3 }],
              maxHistory := 20, maxTokens := 1, totalMessagesAdded := 1 } ∧
      ¬ totalTokens [{ role := "user", content := "aaaaaaaa", tokens := 3 }] ≤ 1) ∧
    (runCalls (mkMemory 1 4000) [("user", "hi"), ("user", "yo")] =
        .ok { messages := [{ role := "user", content := "yo", tokens := 1 }],
              maxHistory := 1, maxTokens := 4000, totalMessagesAdded := 2 } ∧
      ¬ 2 ≤ ([{ role := "user", content := "yo", tokens := 1 }] : List MemMessage).length) := by
  decide

/-- C4 (code bug): the source groups `manager` and `supervisor` under the
`# Explicit human request` comment of `TIER2_KEYWORDS`, but the human-request scan
in `_check_tier2_conditional` slices `TIER2_KEYWORDS[:4]`, which stops short of
them; they land in the strong-frustration slice `[4:]` that needs two distinct
matches.  So `"get me your manager"` — no Tier-1 phrase, suppression not applicable
because the last two emotions are both frustrated — yields NO escalation (tier 0)
instead of the claimed tier 2 `explicit_human_request`, while `"speak to human"`
in the same context escalates as the claim describes. -/
theorem manager_request_not_escalated :
    "manager" ∈ TIER2_KEYWORDS ∧
    strContains (strLower "get me your manager") "manager" = true ∧
    TIER1_KEYWORDS.all (fun k => !(strContains (strLower "get me your manager") k)) = true ∧
    shouldEscalate "get me your manager" "frustrated"
        [{ emotion := "frustrated" }, { emotion := "frustrated" }] 1 0 =
      { should_escalate := false, escalation_tier := 0, reason := "none", urgency := "none",
        suggested_message := none, prevent_escalation := false } ∧
    (shouldEscalate "speak to human please" "frustrated"
        [{ emotion := "frustrated" }, { emotion := "frustrated" }] 1 0).escalation_tier = 2 ∧
    (shouldEscalate "speak to human please" "frustrated"
        [{ emotion := "frustrated" }, { emotion := "frustrated" }] 1 0).reason =
      "explicit_human_request" := by
  decide

/-- Helper: no Tier-1 reason is the low-confidence reason. -/
theorem tier1Reason_ne_low_confidence (matched : List String) :
    tier1Reason matched ≠ "low_confidence" := by
  unfold tier1Reason
  split_ifs <;> decide

/-- Helper: the reason extracted from the Tier-1 check is never `low_confidence`. -/
theorem checkTier1_reason_ne_low_confidence (m : String) :
    (checkTier1Mandatory m).reason.getD "" ≠ "low_confidence" := by
  unfold checkTier1Mandatory
  dsimp only
  split_ifs
  · decide
  · simpa using tier1Reason_ne_low_confidence _

/-- Helper: with confidence 1.0 the Tier-2 check never yields the `low_confidence`
reason, because its guard `confidence < 0.6` is false. -/
theorem checkTier2_one_reason_ne_low_confidence (m e : String) (hist : List EmotionRecord)
    (tf : Nat) :
    (checkTier2Conditional m e hist (1 : ℚ) tf).reason.getD "" ≠ "low_confidence" := by
  unfold checkTier2Conditional
  dsimp only
  split_ifs with h1 h2 h3 h4 h5 <;>
    first
      | (dsimp only; decide)
      | exact absurd h3 (by rw [confidenceLowThreshold_eq]; norm_num)

/-- C10: `process_message` invokes the escalation policy with `confidence`
hard-coded to `1.0` (the `ESCALATION CHECK` block), so for every message, emotion,
emotion history and tool-failure count the Tier-2 `low_confidence` verdict — whose
guard requires confidence < 0.6 — is unreachable through `process_message`: the
returned verdict never carries reason `low_confidence`. -/
theorem low_confidence_unreachable (userMessage emotion : String)
    (hist : List EmotionRecord) (toolFailures : Nat) :
    (orchestratorEscalationCheck userMessage emotion hist toolFailures).reason ≠
      "low_confidence" := by
  unfold orchestratorEscalationCheck shouldEscalate
  dsimp only
  split_ifs
  · simpa using checkTier1_reason_ne_low_confidence (strLower userMessage)
  · dsimp only; decide
  · simpa using checkTier2_one_reason_ne_low_confidence (strLower userMessage) emotion hist
      toolFailures
  · dsimp only; decide

/-- C3: a message whose lowercased text contains any Tier-1 phrase always yields
the Tier-1 verdict — tier 1, urgency critical, escalation on, suppression off —
regardless of emotion, emotion history, confidence and tool-failure count: the
Tier-1 check runs first in `should_escalate` and returns immediately, before the
Tier-2 rules and before the empathy-first suppression. -/
theorem tier1_always_critical (userMessage emotion : String) (hist : List EmotionRecord)
    (confidence : ℚ) (toolFailures : Nat)
    (h : ∃ k ∈ TIER1_KEYWORDS, strContains (strLower userMessage) k = true) :
    (shouldEscalate userMessage emotion hist confidence toolFailures).should_escalate = true ∧
    (shouldEscalate userMessage emotion hist confidence toolFailures).escalation_tier = 1 ∧
    (shouldEscalate userMessage emotion hist confidence toolFailures).urgency = "critical" ∧
    (shouldEscalate userMessage emotion hist confidence toolFailures).prevent_escalation =
      false := by
  obtain ⟨k, hk, hc⟩ := h
  have hmem : k ∈ TIER1_KEYWORDS.filter (fun k => strContains (strLower userMessage) k) :=
    List.mem_filter.2 ⟨hk, hc⟩
  have hne : TIER1_KEYWORDS.filter (fun k => strContains (strLower userMessage) k) ≠ [] :=
    List.ne_nil_of_mem hmem
  have hesc : (checkTier1Mandatory (strLower userMessage)).escalate = true := by
    unfold checkTier1Mandatory
    dsimp only
    rw [if_neg hne]
  unfold shouldEscalate
  dsimp only
  rw [if_pos hesc]
  exact ⟨rfl, rfl, rfl, rfl⟩

/-- C3 (witness): the concrete message `"I want a refund"` with neutral emotion,
empty history, confidence 1 and no tool failures. -/
theorem tier1_always_critical_witness :
    (∃ k ∈ TIER1_KEYWORDS, strContains (strLower "I want a refund") k = true) ∧
    (shouldEscalate "I want a refund" "neutral" [] 1 0).should_escalate = true ∧
    (shouldEscalate "I want a refund" "neutral" [] 1 0).escalation_tier = 1 ∧
    (shouldEscalate "I want a refund" "neutral" [] 1 0).urgency = "critical" ∧
    (shouldEscalate "I want a refund" "neutral" [] 1 0).prevent_escalation = false :=
  ⟨by decide, tier1_always_critical "I want a refund" "neutral" [] 1 0 (by decide)⟩

/-- Helper: `_should_try_empathy_first` holds exactly when fewer than 2 of the
last 2 emotion-history entries are frustrated (the early return for histories
shorter than 2 coincides with the count test, since the count is bounded by the
history length). -/
theorem shouldTryEmpathyFirst_eq (hist : List EmotionRecord) :
    shouldTryEmpathyFirst hist = decide (countFrustratedLast2 hist < 2) := by
  unfold shouldTryEmpathyFirst
  split_ifs with h
  · have hcount : countFrustratedLast2 hist < 2 := by
      have h1 : countFrustratedLast2 hist ≤ (hist.drop (hist.length - 2)).length :=
        List.length_filter_le _ _
      have h2 : (hist.drop (hist.length - 2)).length ≤ hist.length := by
        rw [List.length_drop]; omega
      omega
    simp [hcount]
  · rfl

/-- C5: when the Tier-1 check does not fire but the Tier-2 check does, the verdict
is decided by the last two emotion-history entries: with fewer than 2 frustrated
entries among the last 2 (in particular with a history shorter than 2) the
escalation is suppressed into the tier-3 empathy verdict carrying the empathy
message; with both of the last 2 entries frustrated, the suppression does not
apply and the tier-2 escalation is returned with escalation on. -/
theorem empathy_first_hysteresis (userMessage emotion : String) (hist : List EmotionRecord)
    (confidence : ℚ) (toolFailures : Nat)
    (h1 : (checkTier1Mandatory (strLower userMessage)).escalate = false)
    (h2 : (checkTier2Conditional (strLower userMessage) emotion hist confidence
            toolFailures).escalate = true) :
    (countFrustratedLast2 hist < 2 →
      shouldEscalate userMessage emotion hist confidence toolFailures =
        { should_escalate := false, escalation_tier := 3, reason := "empathy_first",
          urgency := "medium", suggested_message := some (buildEmpathyMessage emotion),
          prevent_escalation := true }) ∧
    (countFrustratedLast2 hist = 2 →
      (shouldEscalate userMessage emotion hist confidence toolFailures).should_escalate =
          true ∧
      (shouldEscalate userMessage emotion hist confidence toolFailures).escalation_tier = 2 ∧
      (shouldEscalate userMessage emotion hist confidence toolFailures).prevent_escalation =
        false) := by
  constructor
  · intro hlt
    have hemp : shouldTryEmpathyFirst hist = true := by
      rw [shouldTryEmpathyFirst_eq]; simpa using hlt
    unfold shouldEscalate
    dsimp only
    rw [if_neg (by simp [h1]), if_pos h2, if_pos hemp]
  · intro heq
    have hemp : shouldTryEmpathyFirst hist = false := by
      rw [shouldTryEmpathyFirst_eq]; simp [heq]
    unfold shouldEscalate
    dsimp only
    rw [if_neg (by simp [h1]), if_pos h2, if_neg (by simp [hemp])]
    exact ⟨rfl, rfl, rfl⟩

/-- C5 (witness): `"this is ridiculous and unacceptable"` matches two
strong-frustration Tier-2 keywords and no Tier-1 phrase; with an empty emotion
history the escalation is suppressed into the tier-3 empathy verdict. -/
theorem empathy_first_hysteresis_witness :
    (checkTier1Mandatory (strLower "this is ridiculous and unacceptable")).escalate = false ∧
    (checkTier2Conditional (strLower "this is ridiculous and unacceptable") "frustrated" []
        1 0).escalate = true ∧
    countFrustratedLast2 [] < 2 ∧
    shouldEscalate "this is ridiculous and unacceptable" "frustrated" [] 1 0 =
      { should_escalate := false, escalation_tier := 3, reason := "empathy_first",
        urgency := "medium", suggested_message := some (buildEmpathyMessage "frustrated"),
        prevent_escalation := true } :=
  ⟨by decide, by decide, by decide,
    (empathy_first_hysteresis "this is ridiculous and unacceptable" "frustrated" [] 1 0
      (by decide) (by decide)).1 (by decide)⟩

/-- Helper: the orchestrator compose call raises for every input — the call site
passes `brand_voice` and `system_prompt`, neither of which is a parameter of
`compose_response` in `core/llm/composer.py`. -/
theorem callComposerComposeResponse_raises (scenario : String) (facts : Facts)
    (generation : Except String String) :
    callComposerComposeResponse scenario facts generation = .error composeTypeError := rfl

/-- C1 (code bug): `process_message` raises `TypeError` on every input message —
even with every remote collaborator behaving perfectly — because its unguarded
`self.composer.compose_response(...)` call passes the keyword arguments
`brand_voice` and `system_prompt`, which the `compose_response` signature in
`core/llm/composer.py` does not accept.  The claimed no-crash property (also
asserted by the repository tests in `tests/test_edge_cases.py`) therefore fails on
the empty string, the 5000-character string, and every other message. -/
theorem process_message_always_raises (userMessage : String) :
    processMessage benignCollaborators initialOrchestratorState userMessage =
      .error composeTypeError := rfl

/-- Helper: `_trim_history` leaves `min max_history (len)` messages. -/
theorem trimHistory_length (mh : Nat) (l : List MemMessage) :
    (trimHistory mh l).length = min mh l.length := by
  unfold trimHistory
  split_ifs with h
  · rw [List.length_drop]; omega
  · omega

/-- Helper: membership survives `_trim_history`. -/
theorem mem_of_mem_trimHistory (mh : Nat) (l : List MemMessage) (m : MemMessage)
    (h : m ∈ trimHistory mh l) : m ∈ l := by
  unfold trimHistory at h
  split_ifs at h with hc
  · exact List.drop_subset _ _ h
  · exact h

/-- Helper: `_trim_by_tokens` only removes messages. -/
theorem trimByTokens_length_le (mt : Nat) (l : List MemMessage) :
    (trimByTokens mt l).length ≤ l.length := by
  induction l with
  | nil => simp [trimByTokens]
  | cons m rest ih =>
    simp only [trimByTokens]
    split_ifs with h
    · have := ih
      simp only [List.length_cons]
      omega
    · exact le_refl _

/-- Helper: membership survives `_trim_by_tokens`. -/
theorem mem_of_mem_trimByTokens (mt : Nat) (l : List MemMessage) (m : MemMessage)
    (h : m ∈ trimByTokens mt l) : m ∈ l := by
  induction l with
  | nil => simpa [trimByTokens] using h
  | cons x rest ih =>
    simp only [trimByTokens] at h
    split_ifs at h with hc
    · exact List.mem_cons_of_mem x (ih h)
    · exact h

/-- Helper: after `_trim_by_tokens` either the budget holds or at most 2 messages
remain (the loop guard). -/
theorem trimByTokens_budget_or_short (mt : Nat) (l : List MemMessage) :
    totalTokens (trimByTokens mt l) ≤ mt ∨ (trimByTokens mt l).length ≤ 2 := by
  induction l with
  | nil => right; simp [trimByTokens]
  | cons m rest ih =>
    simp only [trimByTokens]
    split_ifs with h
    · exact ih
    · rcases not_and_or.mp h with h1 | h2
      · left; omega
      · right; simp only [List.length_cons] at h2 ⊢; omega

/-- Helper: `_trim_by_tokens` never drops below 2 messages. -/
theorem trimByTokens_length_ge (mt : Nat) (l : List MemMessage) :
    min 2 l.length ≤ (trimByTokens mt l).length := by
  induction l with
  | nil => simp [trimByTokens]
  | cons m rest ih =>
    simp only [trimByTokens]
    split_ifs with h
    · have h2 := h.2
      simp only [List.length_cons] at h2 ⊢
      omega
    · simp only [List.length_cons]
      omega

/-- Helper: the count bound is preserved by one `add_message`. -/
theorem addMessageMessages_length_le (mem : ConversationMemory) (role content : String)
    (hlen : mem.messages.length ≤ mem.maxHistory) :
    (addMessageMessages mem role content).length ≤ mem.maxHistory := by
  unfold addMessageMessages
  dsimp only
  split_ifs with h1 h2 h3
  · have ht := trimByTokens_length_le mem.maxTokens
      (trimHistory mem.maxHistory (mem.messages ++ [{ role := role, content := content, tokens := estimateTokens content }]))
    have hh := trimHistory_length mem.maxHistory
      (mem.messages ++ [{ role := role, content := content, tokens := estimateTokens content }])
    omega
  · have hh := trimHistory_length mem.maxHistory
      (mem.messages ++ [{ role := role, content := content, tokens := estimateTokens content }])
    omega
  · have ht := trimByTokens_length_le mem.maxTokens
      (mem.messages ++ [{ role := role, content := content, tokens := estimateTokens content }])
    simp only [List.length_append, List.length_singleton] at h1 ht ⊢
    omega
  · simp only [List.length_append, List.length_singleton] at h1 ⊢
    omega

/-- Helper: the token bound or the 2-message floor holds after one `add_message`. -/
theorem addMessageMessages_budget (mem : ConversationMemory) (role content : String) :
    totalTokens (addMessageMessages mem role content) ≤ mem.maxTokens ∨
    (addMessageMessages mem role content).length ≤ 2 := by
  unfold addMessageMessages
  dsimp only
  split_ifs with h1 h2 h3
  · exact trimByTokens_budget_or_short _ _
  · left; omega
  · exact trimByTokens_budget_or_short _ _
  · left; omega

/-- Helper: one `add_message` keeps at least `min 2 (previous + 1)` messages when
`max_history ≥ 2`. -/
theorem addMessageMessages_length_ge (mem : ConversationMemory) (role content : String)
    (hmh : 2 ≤ mem.maxHistory) :
    min 2 (mem.messages.length + 1) ≤ (addMessageMessages mem role content).length := by
  unfold addMessageMessages
  dsimp only
  split_ifs with h1 h2 h3
  · have ht := trimByTokens_length_ge mem.maxTokens
      (trimHistory mem.maxHistory (mem.messages ++ [{ role := role, content := content, tokens := estimateTokens content }]))
    have hh := trimHistory_length mem.maxHistory
      (mem.messages ++ [{ role := role, content := content, tokens := estimateTokens content }])
    simp only [List.length_append, List.length_singleton] at ht hh ⊢
    omega
  · have hh := trimHistory_length mem.maxHistory
      (mem.messages ++ [{ role := role, content := content, tokens := estimateTokens content }])
    simp only [List.length_append, List.length_singleton] at hh ⊢
    omega
  · have ht := trimByTokens_length_ge mem.maxTokens
      (mem.messages ++ [{ role := role, content := content, tokens := estimateTokens content }])
    simp only [List.length_append, List.length_singleton] at ht ⊢
    omega
  · simp only [List.length_append, List.length_singleton]
    omega

/-- Helper: one successful `add_message` preserves the memory invariant and the
configuration, and counts one appended message. -/
theorem addMessage_preserves (mem mem1 : ConversationMemory) (role content : String)
    (h : addMessage mem role content = .ok mem1) (hinv : MemoryInv mem) :
    MemoryInv mem1 ∧ mem1.maxHistory = mem.maxHistory ∧ mem1.maxTokens = mem.maxTokens ∧
    mem1.totalMessagesAdded = mem.totalMessagesAdded + 1 := by
  unfold addMessage at h
  split_ifs at h with hrole
  · rw [Except.ok.injEq] at h
    subst h
    obtain ⟨hlen, htok, hmin⟩ := hinv
    refine ⟨⟨addMessageMessages_length_le mem role content hlen,
            addMessageMessages_budget mem role content, ?_⟩, rfl, rfl, rfl⟩
    intro hmh
    have hge := addMessageMessages_length_ge mem role content hmh
    have hold := hmin hmh
    dsimp only
    omega

/-- Helper: a successful run of `add_message` calls preserves the memory invariant
and the configuration. -/
theorem runCalls_preserves (calls : List (String × String)) :
    ∀ mem mem1 : ConversationMemory, runCalls mem calls = .ok mem1 → MemoryInv mem →
      MemoryInv mem1 ∧ mem1.maxHistory = mem.maxHistory ∧ mem1.maxTokens = mem.maxTokens := by
  induction calls with
  | nil =>
    intro mem mem1 h hinv
    simp only [runCalls, Except.ok.injEq] at h
    subst h
    exact ⟨hinv, rfl, rfl⟩
  | cons c rest ih =>
    intro mem mem1 h hinv
    obtain ⟨role, content⟩ := c
    simp only [runCalls] at h
    cases hadd : addMessage mem role content with
    | error e => rw [hadd] at h; exact absurd h (by simp)
    | ok mem2 =>
      rw [hadd] at h
      obtain ⟨hinv2, hmh2, hmt2, _⟩ := addMessage_preserves mem mem2 role content hadd hinv
      obtain ⟨hinv1, hmh1, hmt1⟩ := ih mem2 mem1 h hinv2
      exact ⟨hinv1, hmh1.trans hmh2, hmt1.trans hmt2⟩

/-- C2 (amended): for every configuration and every sequence of valid `add_message`
calls, after each call the message count is at most `max_history`; the token sum is
at most `max_tokens` unless eviction has stopped at its 2-message floor (at most
2 messages remain); and — provided `max_history ≥ 2` — at least 2 messages survive
whenever at least 2 messages were ever appended. -/
theorem memory_bounds_amended (maxHistory maxTokens : Nat) (calls : List (String × String))
    (mem : ConversationMemory)
    (h : runCalls (mkMemory maxHistory maxTokens) calls = .ok mem) :
    mem.messages.length ≤ maxHistory ∧
    (totalTokens mem.messages ≤ maxTokens ∨ mem.messages.length ≤ 2) ∧
    (2 ≤ maxHistory → min 2 mem.totalMessagesAdded ≤ mem.messages.length) := by
  have hinv0 : MemoryInv (mkMemory maxHistory maxTokens) := by
    refine ⟨by simp [mkMemory], .inr (by simp [mkMemory]), ?_⟩
    intro
    simp [mkMemory]
  obtain ⟨hinv, hmh, hmt⟩ := runCalls_preserves calls _ _ h hinv0
  simp only [mkMemory] at hmh hmt
  obtain ⟨h1, h2, h3⟩ := hinv
  rw [hmh] at h1 h3
  rw [hmt] at h2
  exact ⟨h1, h2, h3⟩

/-- C2 (amended, witness): two valid appends within a 20-message / 4000-token
configuration. -/
theorem memory_bounds_amended_witness :
    ([{ role := "user", content := "hi", tokens := 1 },
      { role := "assistant", content := "hello", tokens := 2 }] : List MemMessage).length ≤
        20 ∧
    (totalTokens [{ role := "user", content := "hi", tokens := 1 },
                  { role := "assistant", content := "hello", tokens := 2 }] ≤ 4000 ∨
      ([{ role := "user", content := "hi", tokens := 1 },
        { role := "assistant", content := "hello", tokens := 2 }] : List MemMessage).length ≤
          2) ∧
    (2 ≤ 20 →
      min 2 2 ≤
        ([{ role := "user", content := "hi", tokens := 1 },
          { role := "assistant", content := "hello", tokens := 2 }] :
            List MemMessage).length) :=
  memory_bounds_amended 20 4000 [("user", "hi"), ("assistant", "hello")]
    { messages := [{ role := "user", content := "hi", tokens := 1 },
                   { role := "assistant", content := "hello", tokens := 2 }],
      maxHistory := 20, maxTokens := 4000, totalMessagesAdded := 2 } (by decide)

/-- Helper: every message surviving `add_message` is either an old message or the
newly appended record carrying the floor token estimate. -/
theorem mem_addMessageMessages (mem : ConversationMemory) (role content : String)
    (m : MemMessage) (hm : m ∈ addMessageMessages mem role content) :
    m ∈ mem.messages ∨
      m = { role := role, content := content, tokens := estimateTokens content } := by
  unfold addMessageMessages at hm
  dsimp only at hm
  have happ : m ∈ mem.messages ++
      [{ role := role, content := content, tokens := estimateTokens content }] := by
    split_ifs at hm with h1 h2 h3
    · exact mem_of_mem_trimHistory _ _ _ (mem_of_mem_trimByTokens _ _ _ hm)
    · exact mem_of_mem_trimHistory _ _ _ hm
    · exact mem_of_mem_trimByTokens _ _ _ hm
    · exact hm
  rcases List.mem_append.mp happ with h | h
  · exact .inl h
  · exact .inr (by simpa using h)

/-- C9 (amended): `add_message` records the appended message with the FLOOR token
estimate `len(text) // 4 + 1` (not the ceiling of the claim): every message in the
post-call state is either a previously stored message or the new record whose
token field equals `content.length / 4 + 1`. -/
theorem token_estimate_amended (mem mem1 : ConversationMemory) (role content : String)
    (h : addMessage mem role content = .ok mem1) (m : MemMessage) (hm : m ∈ mem1.messages) :
    m ∈ mem.messages ∨
      (m.role = role ∧ m.content = content ∧ m.tokens = content.length / 4 + 1) := by
  unfold addMessage at h
  split_ifs at h with hrole
  · rw [Except.ok.injEq] at h
    subst h
    rcases mem_addMessageMessages mem role content m (by simpa using hm) with h1 | h2
    · exact .inl h1
    · subst h2
      exact .inr ⟨rfl, rfl, rfl⟩

/-- C9 (amended, witness): appending `"abcde"` (5 characters) to a fresh memory
records it with `5 / 4 + 1 = 2` tokens. -/
theorem token_estimate_amended_witness :
    ({ role := "user", content := "abcde", tokens := 2 } : MemMessage) ∈
        (mkMemory 20 4000).messages ∨
      (({ role := "user", content := "abcde", tokens := 2 } : MemMessage).role = "user" ∧
        ({ role := "user", content := "abcde", tokens := 2 } : MemMessage).content = "abcde" ∧
        ({ role := "user", content := "abcde", tokens := 2 } : MemMessage).tokens =
          "abcde".length / 4 + 1) :=
  token_estimate_amended (mkMemory 20 4000)
    { messages := [{ role := "user", content := "abcde", tokens := 2 }],
      maxHistory := 20, maxTokens := 4000, totalMessagesAdded := 1 }
    "user" "abcde" (by decide) { role := "user", content := "abcde", tokens := 2 } (by decide)
